import Mathlib

/-!
Verification development for the real-estate-analyzer financial core.

The Python source stores money and rates as `Decimal`; here every such value
is an exact rational (`ℚ`).  `Decimal.quantize(Decimal("0.01"), ROUND_HALF_UP)`
is modelled by `quantize2` (round to cents, ties away from zero) and the
4-decimal variant by `quantize4`.  Fallible Python functions (those that raise
`ValueError`) are modelled with `Option`, or with plain functions whose
theorems carry the guard conditions of the source as hypotheses.
-/

/-- Round to the nearest integer, ties away from zero: the rounding used by
Python `Decimal` quantize with `ROUND_HALF_UP`. -/
def roundHalfUp (x : ℚ) : ℤ :=
  if 0 ≤ x then ⌊x + 1/2⌋ else -⌊-x + 1/2⌋

/-- `Decimal.quantize(Decimal("0.01"), rounding=ROUND_HALF_UP)`. -/
def quantize2 (x : ℚ) : ℚ := (roundHalfUp (x * 100) : ℚ) / 100

/-- `Decimal.quantize(Decimal("0.0001"), rounding=ROUND_HALF_UP)`. -/
def quantize4 (x : ℚ) : ℚ := (roundHalfUp (x * 10000) : ℚ) / 10000

/-- A rational that is a whole number of cents (the granularity every
quantized monetary value has). -/
def Cent (x : ℚ) : Prop := ∃ n : ℤ, x = (n : ℚ) / 100

/-! ## Financial primitives (`app/utils/financial.py`) -/

/-- `calculate_monthly_mortgage(loan_amount, annual_rate, term_years)`.
The source raises `ValueError` when `loan_amount < 0`, `term_years < 1` or
`annual_rate < 0`; theorems about this function carry those guards as
hypotheses.  `r = (annual_rate/100)/12` (which is `0` exactly when the rate
is `0`, matching the source's conditional expression). -/
def calculate_monthly_mortgage (loan_amount annual_rate : ℚ) (term_years : ℤ) : ℚ :=
  let n : ℤ := term_years * 12
  if loan_amount = 0 then 0
  else
    let r := annual_rate / 100 / 12
    if r = 0 then quantize2 (loan_amount / (n : ℚ))
    else
      let one_plus_r_n := (1 + r) ^ n.toNat
      quantize2 (loan_amount * (r * one_plus_r_n) / (one_plus_r_n - 1))

/-- One row of the amortization schedule. -/
structure AmortRow where
  payment_number : ℕ
  payment : ℚ
  principal : ℚ
  interest : ℚ
  remaining_balance : ℚ
deriving DecidableEq

/-- `if remaining < 0: remaining = 0` from the schedule loop. -/
def floor0 (x : ℚ) : ℚ := if x < 0 then 0 else x

/-- The `r != 0` loop of `calculate_amortization_schedule`: `k` payments left,
`i` the current payment number, `rem` the running (unquantized) balance.
Each period: interest = cents(balance × r), principal = cents(payment −
interest), balance reduced and floored at zero. -/
def amortLoopPos (payment r : ℚ) : ℕ → ℕ → ℚ → List AmortRow
  | 0, _, _ => []
  | k+1, i, rem =>
    let interest := quantize2 (rem * r)
    let principal := quantize2 (payment - interest)
    let rem2 := floor0 (rem - principal)
    AmortRow.mk i payment principal interest (quantize2 rem2)
      :: amortLoopPos payment r k (i+1) rem2

/-- The `r == 0` loop of `calculate_amortization_schedule`: level principal
`per` each period, the final period (`k = 0`) absorbing the whole residual. -/
def amortLoopZero (payment per : ℚ) : ℕ → ℕ → ℚ → List AmortRow
  | 0, _, _ => []
  | k+1, i, rem =>
    let principal := if k = 0 then rem else per
    let rem2 := floor0 (rem - principal)
    AmortRow.mk i payment principal 0 (quantize2 rem2)
      :: amortLoopZero payment per k (i+1) rem2

/-- `calculate_amortization_schedule(loan_amount, annual_rate, term_years)`.
Source guards (`loan_amount < 0`, `term_years < 1`, `annual_rate < 0` raise
`ValueError`) become hypotheses of the theorems below. -/
def calculate_amortization_schedule (loan_amount annual_rate : ℚ)
    (term_years : ℤ) : List AmortRow :=
  let n := (term_years * 12).toNat
  let payment := calculate_monthly_mortgage loan_amount annual_rate term_years
  let r := annual_rate / 100 / 12
  if loan_amount = 0 then []
  else if r = 0 then amortLoopZero payment (quantize2 (loan_amount / (n : ℚ))) n 1 loan_amount
  else amortLoopPos payment r n 1 loan_amount

/-- Sum of the principal portions of a schedule. -/
def sumPrincipal : List AmortRow → ℚ
  | [] => 0
  | row :: rest => row.principal + sumPrincipal rest

/-- Remaining balance of the last row of `s`, or `d` when `s` is empty. -/
def lastBalanceFrom : List AmortRow → ℚ → ℚ
  | [], d => d
  | row :: rest, _ => lastBalanceFrom rest row.remaining_balance

/-- Remaining balance recorded in the final row (0 for an empty schedule). -/
def lastRemainingBalance (s : List AmortRow) : ℚ := lastBalanceFrom s 0

/-- NPV at rate `r` of the Newton fallback inside `calculate_irr`; the source
returns 0 outright at `r = −1` to avoid dividing by zero. -/
def npvAt (cash_flows : List ℚ) (r : ℚ) : ℚ :=
  if r = -1 then 0
  else ((List.range cash_flows.length).map
    (fun (t : ℕ) => cash_flows.getD t 0 / (1 + r) ^ t)).sum

/-- Derivative of the NPV used by the Newton fallback (the `t = 0` term is
skipped). -/
def npvPrimeAt (cash_flows : List ℚ) (r : ℚ) : ℚ :=
  ((List.range cash_flows.length).map
    (fun (t : ℕ) => if t = 0 then 0
      else -((t : ℚ) * cash_flows.getD t 0 / (1 + r) ^ (t + 1)))).sum

/-- The Newton iteration of `calculate_irr`: up to `fuel` rounds from guess
`r`; success when `|NPV| < 0.0001`; derivative 0 aborts; the next guess is
floored at −0.99.  `none` models the `ValueError` "IRR did not converge". -/
def newtonIrr (cash_flows : List ℚ) : ℕ → ℚ → Option ℚ
  | 0, _ => none
  | fuel+1, r =>
    let val := npvAt cash_flows r
    if |val| < 1/10000 then some (quantize4 r)
    else
      let der := npvPrimeAt cash_flows r
      if der = 0 then none
      else
        let r2 := r - val / der
        let r3 := if r2 < -(99/100) then -(99/100) else r2
        newtonIrr cash_flows fuel r3

/-- `calculate_irr(cash_flows)` (the in-repository Newton fallback path:
the optional external numeric library is outside this repository).  `none`
models a raised `ValueError` (fewer than two entries, or no convergence
within 100 iterations). -/
def calculate_irr (cash_flows : List ℚ) : Option ℚ :=
  if cash_flows.length < 2 then none
  else newtonIrr cash_flows 100 (1/10)

/-- `calculate_remaining_balance(loan_amount, annual_rate, term_years,
years_elapsed)`.  Source guards (`loan_amount <= 0`, `term_years < 1`,
`annual_rate < 0` raise `ValueError`) become hypotheses of callers'
theorems. -/
def calculate_remaining_balance (loan_amount annual_rate : ℚ)
    (term_years years_elapsed : ℤ) : ℚ :=
  if years_elapsed ≤ 0 then quantize2 loan_amount
  else if term_years ≤ years_elapsed then 0
  else
    let schedule := calculate_amortization_schedule loan_amount annual_rate term_years
    let months := (years_elapsed * 12).toNat
    if schedule.length ≤ months then 0
    else (schedule.getD (months - 1) (AmortRow.mk 0 0 0 0 0)).remaining_balance

/-! ## Deal metrics calculator (`app/services/deal_calculator.py`) -/

/-- The keys of the `deal_inputs` dict read by `DealCalculator`.  Every field
is optional, matching `dict.get`. -/
structure DealInputs where
  purchase_price : Option ℚ
  down_payment_pct : Option ℚ
  loan_amount : Option ℚ
  interest_rate : Option ℚ
  loan_term_years : Option ℤ
  monthly_mortgage : Option ℚ
  gross_monthly_rent : Option ℚ
  vacancy_rate_pct : Option ℚ
  other_monthly_income : Option ℚ
  property_tax_monthly : Option ℚ
  insurance_monthly : Option ℚ
  maintenance_rate_pct : Option ℚ
  management_fee_pct : Option ℚ
  hoa_monthly : Option ℚ
  utilities_monthly : Option ℚ
  closing_costs : Option ℚ
  rehab_costs : Option ℚ
  after_repair_value : Option ℚ
  selling_costs : Option ℚ
  total_cash_invested : Option ℚ
  annual_cash_flow : Option ℚ
deriving DecidableEq

/-- `_d(val)`: coerce to Decimal, `None` becomes 0. -/
def dOpt : Option ℚ → ℚ
  | none => 0
  | some v => v

/-- Python `x.get(key) or default`: the default is used when the key is
absent or its value is falsy (i.e. the Decimal 0). -/
def orDflt (x : Option ℚ) (d : ℚ) : ℚ :=
  match x with
  | none => d
  | some v => if v = 0 then d else v

/-- `x.get(key) or default` for an integer-valued key. -/
def orDfltZ (x : Option ℤ) (d : ℤ) : ℤ :=
  match x with
  | none => d
  | some v => if v = 0 then d else v

/-- `calculate_noi(...)`: vacancy loss, EGI, operating expenses (excluding
debt service), then monthly NOI × 12, each step rounded to cents. -/
def calculate_noi (gross_monthly_rent vacancy_rate_pct property_tax_monthly
    insurance_monthly maintenance_rate_pct management_fee_pct hoa_monthly
    utilities_monthly other_monthly_income : ℚ) : ℚ :=
  let vacancy_loss := quantize2 (gross_monthly_rent * vacancy_rate_pct / 100)
  let egi := quantize2 (gross_monthly_rent + other_monthly_income - vacancy_loss)
  let maintenance := quantize2 (gross_monthly_rent * maintenance_rate_pct / 100)
  let management := quantize2 (gross_monthly_rent * management_fee_pct / 100)
  let opex := quantize2 (property_tax_monthly + insurance_monthly + maintenance
    + management + hoa_monthly + utilities_monthly)
  let monthly_noi := quantize2 (egi - opex)
  quantize2 (monthly_noi * 12)

/-- `calculate_dscr(noi, annual_debt_service)`: `none` models the `None`
returned for zero debt service (all-cash deal); never raises. -/
def calculate_dscr (noi annual_debt_service : ℚ) : Option ℚ :=
  if annual_debt_service = 0 then none
  else some (quantize4 (noi / annual_debt_service))

/-- `calculate_equity_buildup(loan_amount, annual_rate, term_years, years)`. -/
def calculate_equity_buildup (loan_amount annual_rate : ℚ)
    (term_years years : ℤ) : ℚ :=
  if loan_amount ≤ 0 then 0
  else quantize2 (loan_amount
    - calculate_remaining_balance loan_amount annual_rate term_years years)

/-- The loan term resolved by `calculate_irr_projection` and
`calculate_all`: `deal_inputs.get("loan_term_years") or 30`. -/
def resolvedTerm (p : DealInputs) : ℤ := orDfltZ p.loan_term_years 30

/-- The initial cash outflow used by `calculate_irr_projection`:
`total_cash_invested`, falling back to the purchase price when it is ≤ 0. -/
def irrInitialOutlay (p : DealInputs) : ℚ :=
  let tci := dOpt p.total_cash_invested
  if tci ≤ 0 then dOpt p.purchase_price else tci

/-- Sale price resolved by `calculate_irr_projection`:
`_d(deal_inputs.get("after_repair_value") or deal_inputs.get("purchase_price"))`. -/
def irrSalePrice (p : DealInputs) : ℚ :=
  match p.after_repair_value with
  | none => dOpt p.purchase_price
  | some v => if v = 0 then dOpt p.purchase_price else v

/-- Loan balance at exit used by `calculate_irr_projection`: computed from
the schedule only when there is a loan and the hold ends before payoff. -/
def irrRemainingBalance (p : DealInputs) (hold_years : ℕ) : ℚ :=
  let loan := dOpt p.loan_amount
  if 0 < loan ∧ (hold_years : ℤ) < resolvedTerm p then
    calculate_remaining_balance loan (dOpt p.interest_rate) (resolvedTerm p) hold_years
  else 0

/-- Exit proceeds appended by `calculate_irr_projection`:
`(sale_price − selling_costs − remaining_balance).quantize(cents)`. -/
def irrExitProceeds (p : DealInputs) (hold_years : ℕ) : ℚ :=
  quantize2 (irrSalePrice p - dOpt p.selling_costs - irrRemainingBalance p hold_years)

/-- The cash-flow list `calculate_irr_projection` builds and hands to
`calculate_irr`: initial outflow, one entry per hold year, then the exit
proceeds appended as one further entry. -/
def irrCashFlows (p : DealInputs) (hold_years : ℕ) : List ℚ :=
  let annual_cash_flow := dOpt p.annual_cash_flow
  List.cons (-(irrInitialOutlay p))
    (List.replicate hold_years annual_cash_flow ++ [irrExitProceeds p hold_years])

/-- `calculate_irr_projection(deal_inputs, hold_years)`; `none` models the
`ValueError` propagated from a non-convergent `calculate_irr`. -/
def calculate_irr_projection (p : DealInputs) (hold_years : ℕ) : Option ℚ :=
  calculate_irr (irrCashFlows p hold_years)

/-- Loan amount resolved by `calculate_all`: the given value when the key is
present (`is None` test, so a supplied 0 is kept), otherwise
`purchase_price × (1 − down_payment_pct/100)` with the `or 20` default. -/
def resolvedLoanAmount (p : DealInputs) : ℚ :=
  let purchase_price := dOpt p.purchase_price
  let down_pct := orDflt p.down_payment_pct 20
  match p.loan_amount with
  | none => quantize2 (purchase_price - purchase_price * down_pct / 100)
  | some v => v

/-- Monthly mortgage resolved by `calculate_all`: the given nonzero value,
else computed from the resolved loan when the loan is positive and the rate
non-negative. -/
def resolvedMonthlyMortgage (p : DealInputs) : ℚ :=
  let mm := dOpt p.monthly_mortgage
  if mm = 0 ∧ 0 < resolvedLoanAmount p ∧ 0 ≤ dOpt p.interest_rate then
    calculate_monthly_mortgage (resolvedLoanAmount p) (dOpt p.interest_rate) (resolvedTerm p)
  else mm

/-- Annual NOI computed inside `calculate_all` (with the falsy-or defaults
vacancy 5, maintenance 5, management 10). -/
def noiOf (p : DealInputs) : ℚ :=
  calculate_noi (dOpt p.gross_monthly_rent) (orDflt p.vacancy_rate_pct 5)
    (dOpt p.property_tax_monthly) (dOpt p.insurance_monthly)
    (orDflt p.maintenance_rate_pct 5) (orDflt p.management_fee_pct 10)
    (dOpt p.hoa_monthly) (dOpt p.utilities_monthly) (dOpt p.other_monthly_income)

/-- Monthly effective gross income recomputed inside `calculate_all`. -/
def egiMonthlyOf (p : DealInputs) : ℚ :=
  let gross := dOpt p.gross_monthly_rent
  let vacancy_loss := quantize2 (gross * orDflt p.vacancy_rate_pct 5 / 100)
  quantize2 (gross + dOpt p.other_monthly_income - vacancy_loss)

/-- Monthly operating expenses recomputed inside `calculate_all`. -/
def opexMonthlyOf (p : DealInputs) : ℚ :=
  let gross := dOpt p.gross_monthly_rent
  let maintenance := quantize2 (gross * orDflt p.maintenance_rate_pct 5 / 100)
  let management := quantize2 (gross * orDflt p.management_fee_pct 10 / 100)
  quantize2 (dOpt p.property_tax_monthly + dOpt p.insurance_monthly + maintenance
    + management + dOpt p.hoa_monthly + dOpt p.utilities_monthly)

/-- `calculate_monthly_cash_flow(egi, opex, mortgage)` applied to the values
`calculate_all` passes it. -/
def monthlyCashFlowOf (p : DealInputs) : ℚ :=
  quantize2 (egiMonthlyOf p - opexMonthlyOf p - resolvedMonthlyMortgage p)

/-- Annual cash flow from `calculate_all`. -/
def annualCashFlowOf (p : DealInputs) : ℚ := quantize2 (monthlyCashFlowOf p * 12)

/-- Down payment amount from `calculate_all`:
`purchase_price × down_pct / 100` rounded to cents. -/
def downPaymentAmountOf (p : DealInputs) : ℚ :=
  quantize2 (dOpt p.purchase_price * orDflt p.down_payment_pct 20 / 100)

/-- `calculate_total_cash_invested`: down payment + closing + rehab. -/
def totalCashInvestedOf (p : DealInputs) : ℚ :=
  quantize2 (downPaymentAmountOf p + dOpt p.closing_costs + dOpt p.rehab_costs)

/-- `calculate_cap_rate(noi, purchase_price)` on `calculate_all`'s values
(the source raises for a non-positive price, which `calculate_all` has
already excluded). -/
def capRateOf (p : DealInputs) : ℚ := quantize4 (noiOf p / dOpt p.purchase_price)

/-- Annual gross rent from `calculate_all`. -/
def annualGrossRentOf (p : DealInputs) : ℚ := quantize2 (dOpt p.gross_monthly_rent * 12)

/-- `calculate_grm(purchase_price, annual_gross_rent)` on `calculate_all`'s
values (the source raises for non-positive rent). -/
def grmOf (p : DealInputs) : ℚ := quantize2 (dOpt p.purchase_price / annualGrossRentOf p)

/-- Annual debt service from `calculate_all`: monthly mortgage × 12, cents. -/
def annualDebtServiceOf (p : DealInputs) : ℚ :=
  quantize2 (resolvedMonthlyMortgage p * 12)

/-- Cash-on-cash from `calculate_all`: `None` when invested capital ≤ 0. -/
def cashOnCashOf (p : DealInputs) : Option ℚ :=
  if 0 < totalCashInvestedOf p then
    some (quantize4 (annualCashFlowOf p / totalCashInvestedOf p))
  else none

/-- The enriched input dict `calculate_all` hands to
`calculate_irr_projection` (resolved values overriding the raw ones). -/
def inputsForIrr (p : DealInputs) : DealInputs :=
  { p with
    purchase_price := some (dOpt p.purchase_price)
    total_cash_invested := some (totalCashInvestedOf p)
    annual_cash_flow := some (annualCashFlowOf p)
    loan_amount := some (resolvedLoanAmount p)
    interest_rate := some (dOpt p.interest_rate)
    loan_term_years := some (resolvedTerm p)
    after_repair_value := some (match p.after_repair_value with
      | none => dOpt p.purchase_price
      | some v => if v = 0 then dOpt p.purchase_price else v) }

/-- The metric set returned by `calculate_all`. -/
structure DealMetrics where
  noi : ℚ
  cap_rate : ℚ
  cash_on_cash : Option ℚ
  monthly_cash_flow : ℚ
  annual_cash_flow : ℚ
  total_cash_invested : ℚ
  dscr : Option ℚ
  grm : ℚ
  irr_5yr : Option ℚ
  irr_10yr : Option ℚ
  equity_buildup_5yr : ℚ
  equity_buildup_10yr : ℚ

/-- `DealCalculator.calculate_all(deal_inputs)` on its non-raising domain
(the source raises `ValueError` when `purchase_price ≤ 0` or the annual
gross rent is ≤ 0, and for a positive loan with a negative rate or a term
below 1 year; theorems below carry those guards as hypotheses). -/
def calcAllCore (p : DealInputs) : DealMetrics :=
  DealMetrics.mk (noiOf p) (capRateOf p) (cashOnCashOf p) (monthlyCashFlowOf p)
    (annualCashFlowOf p) (totalCashInvestedOf p)
    (calculate_dscr (noiOf p) (annualDebtServiceOf p)) (grmOf p)
    (calculate_irr_projection (inputsForIrr p) 5)
    (calculate_irr_projection (inputsForIrr p) 10)
    (if 0 < resolvedLoanAmount p then
      calculate_equity_buildup (resolvedLoanAmount p) (dOpt p.interest_rate) (resolvedTerm p) 5
     else 0)
    (if 0 < resolvedLoanAmount p then
      calculate_equity_buildup (resolvedLoanAmount p) (dOpt p.interest_rate) (resolvedTerm p) 10
     else 0)

/-! ## Projection engine (`app/services/projections.py`) -/

/-- One annual bucket from `_aggregate_amortization_annual`. -/
structure AnnualAmort where
  year : ℕ
  principal_paid : ℚ
  interest_paid : ℚ
  ending_balance : ℚ
deriving DecidableEq

/-- `_aggregate_amortization_annual(loan_amount, annual_rate, term_years,
projection_years)`: monthly schedule sliced into 12-month buckets; all-zero
rows for an all-cash purchase or for years past payoff. -/
def aggregate_amortization_annual (loan_amount annual_rate : ℚ)
    (term_years : ℤ) (projection_years : ℕ) : List AnnualAmort :=
  if loan_amount ≤ 0 then
    (List.range projection_years).map (fun i => AnnualAmort.mk (i + 1) 0 0 0)
  else
    let schedule := calculate_amortization_schedule loan_amount annual_rate term_years
    (List.range projection_years).map (fun i =>
      let months := (schedule.drop (i * 12)).take 12
      match months.getLast? with
      | none => AnnualAmort.mk (i + 1) 0 0 0
      | some lastRow =>
        AnnualAmort.mk (i + 1)
          (quantize2 ((months.map AmortRow.principal).sum))
          (quantize2 ((months.map AmortRow.interest).sum))
          lastRow.remaining_balance)

/-- Annual gross rent simulated for a given year (year 1 unescalated). -/
def projAnnualGrossRent (gross_monthly_rent annual_rent_growth_pct : ℚ)
    (year : ℕ) : ℚ :=
  quantize2 (gross_monthly_rent * 12 * (1 + annual_rent_growth_pct / 100) ^ (year - 1))

/-- Annual operating expenses simulated for a given year. -/
def projAnnualExpenses (base_monthly_expenses annual_expense_growth_pct : ℚ)
    (year : ℕ) : ℚ :=
  quantize2 (base_monthly_expenses * 12 * (1 + annual_expense_growth_pct / 100) ^ (year - 1))

/-- Annual net cash flow simulated for a given year:
rent − expenses − 12 × mortgage, each term rounded to cents first. -/
def projAnnualNetCashFlow (gross_monthly_rent base_monthly_expenses
    monthly_mortgage annual_rent_growth_pct annual_expense_growth_pct : ℚ)
    (year : ℕ) : ℚ :=
  quantize2 (projAnnualGrossRent gross_monthly_rent annual_rent_growth_pct year
    - projAnnualExpenses base_monthly_expenses annual_expense_growth_pct year
    - quantize2 (monthly_mortgage * 12))

/-- The `yearly_net_cashflows` list accumulated by
`compute_yearly_projections`. -/
def yearlyNetCashflows (gross_monthly_rent base_monthly_expenses
    monthly_mortgage annual_rent_growth_pct annual_expense_growth_pct : ℚ)
    (projection_years : ℕ) : List ℚ :=
  (List.range projection_years).map (fun i =>
    projAnnualNetCashFlow gross_monthly_rent base_monthly_expenses
      monthly_mortgage annual_rent_growth_pct annual_expense_growth_pct (i + 1))

/-- The `yearly_balances` list accumulated by `compute_yearly_projections`. -/
def yearlyBalances (loan_amount annual_rate : ℚ) (term_years : ℤ)
    (projection_years : ℕ) : List ℚ :=
  (aggregate_amortization_annual loan_amount annual_rate term_years
    projection_years).map AnnualAmort.ending_balance

/-- Compound-appreciation property value at a given year. -/
def projPropertyValue (purchase_price annual_appreciation_pct : ℚ)
    (year : ℕ) : ℚ :=
  quantize2 (purchase_price * (1 + annual_appreciation_pct / 100) ^ year)

/-- The `yearly_values` list accumulated by `compute_yearly_projections`. -/
def yearlyValues (purchase_price annual_appreciation_pct : ℚ)
    (projection_years : ℕ) : List ℚ :=
  (List.range projection_years).map (fun i =>
    projPropertyValue purchase_price annual_appreciation_pct (i + 1))

/-- The cash-flow list built by `_compute_irr`: initial outflow, the first
N−1 operating cash flows, and the final year's cash flow combined with the
net sale proceeds. -/
def projIrrFlows (total_cash_invested : ℚ) (yearly_net_cashflows
    yearly_balances yearly_values : List ℚ) (hold_years : ℕ)
    (selling_cost_pct : ℚ) : List ℚ :=
  let exit_value := yearly_values.getD (hold_years - 1) 0
  let exit_balance := yearly_balances.getD (hold_years - 1) 0
  let exit_proceeds := quantize2 (exit_value * (1 - selling_cost_pct / 100) - exit_balance)
  List.cons (-total_cash_invested)
    ((yearly_net_cashflows.take (hold_years - 1))
      ++ [yearly_net_cashflows.getD (hold_years - 1) 0 + exit_proceeds])

/-- `_compute_irr(...)`: absent when the hold exceeds the simulated years or
invested capital is non-positive; otherwise whatever `calculate_irr` gives,
with its `ValueError`/`ZeroDivisionError` caught as absent. -/
def compute_irr (total_cash_invested : ℚ) (yearly_net_cashflows
    yearly_balances yearly_values : List ℚ) (hold_years : ℕ)
    (selling_cost_pct : ℚ) : Option ℚ :=
  if yearly_net_cashflows.length < hold_years then none
  else if total_cash_invested ≤ 0 then none
  else calculate_irr (projIrrFlows total_cash_invested yearly_net_cashflows
    yearly_balances yearly_values hold_years selling_cost_pct)

/-- One simulated year of `compute_yearly_projections`. -/
structure YearRow where
  year : ℕ
  property_value : ℚ
  loan_balance : ℚ
  equity : ℚ
  principal_paid : ℚ
  interest_paid : ℚ
  annual_gross_rent : ℚ
  annual_expenses : ℚ
  annual_mortgage_payment : ℚ
  annual_net_cash_flow : ℚ
  cumulative_cash_flow : ℚ
deriving DecidableEq

/-- The year loop of `compute_yearly_projections`: `k` years left, `year`
the current index, `cum` the running cumulative cash flow. -/
def buildYearly (purchase_price annual_appreciation_pct : ℚ)
    (amort : List AnnualAmort) (gross_monthly_rent base_monthly_expenses
    monthly_mortgage annual_rent_growth_pct annual_expense_growth_pct : ℚ) :
    ℕ → ℕ → ℚ → List YearRow
  | 0, _, _ => []
  | k+1, year, cum =>
    let property_value := projPropertyValue purchase_price annual_appreciation_pct year
    let a := amort.getD (year - 1) (AnnualAmort.mk year 0 0 0)
    let equity := quantize2 (property_value - a.ending_balance)
    let annual_gross_rent := projAnnualGrossRent gross_monthly_rent annual_rent_growth_pct year
    let annual_expenses := projAnnualExpenses base_monthly_expenses annual_expense_growth_pct year
    let annual_mortgage_payment := quantize2 (monthly_mortgage * 12)
    let annual_net_cash_flow :=
      quantize2 (annual_gross_rent - annual_expenses - annual_mortgage_payment)
    let cum2 := quantize2 (cum + annual_net_cash_flow)
    YearRow.mk year property_value a.ending_balance equity a.principal_paid
        a.interest_paid annual_gross_rent annual_expenses annual_mortgage_payment
        annual_net_cash_flow cum2
      :: buildYearly purchase_price annual_appreciation_pct amort gross_monthly_rent
          base_monthly_expenses monthly_mortgage annual_rent_growth_pct
          annual_expense_growth_pct k (year + 1) cum2

/-- Result of `compute_yearly_projections`. -/
structure ProjectionResult where
  yearly : List YearRow
  irr_5yr : Option ℚ
  irr_10yr : Option ℚ

/-- `compute_yearly_projections(...)` from `app/services/projections.py`.
The guard raises of the schedule (positive loan with negative rate or term
below 1) are carried as hypotheses by the theorems below. -/
def compute_yearly_projections (purchase_price loan_amount
    annual_interest_rate : ℚ) (loan_term_years : ℤ) (monthly_mortgage
    gross_monthly_rent base_monthly_expenses total_cash_invested : ℚ)
    (projection_years : ℕ) (annual_appreciation_pct annual_rent_growth_pct
    annual_expense_growth_pct selling_cost_pct : ℚ) : ProjectionResult :=
  let amort := aggregate_amortization_annual loan_amount annual_interest_rate
    loan_term_years projection_years
  let cfs := yearlyNetCashflows gross_monthly_rent base_monthly_expenses
    monthly_mortgage annual_rent_growth_pct annual_expense_growth_pct projection_years
  let bals := yearlyBalances loan_amount annual_interest_rate loan_term_years projection_years
  let vals := yearlyValues purchase_price annual_appreciation_pct projection_years
  ProjectionResult.mk
    (buildYearly purchase_price annual_appreciation_pct amort gross_monthly_rent
      base_monthly_expenses monthly_mortgage annual_rent_growth_pct
      annual_expense_growth_pct projection_years 1 0)
    (if 5 ≤ projection_years then
      compute_irr total_cash_invested cfs bals vals 5 selling_cost_pct
     else none)
    (if 10 ≤ projection_years then
      compute_irr total_cash_invested cfs bals vals 10 selling_cost_pct
     else none)

/-! ## Risk engine (`app/services/risk_engine.py`) -/

/-- `_clamp(value, lo, hi)`: clamp then quantize to 2 decimals. -/
def riskClamp (value lo hi : ℚ) : ℚ :=
  if value < lo then quantize2 lo
  else if hi < value then quantize2 hi
  else quantize2 value

/-- `_score_dscr`: DSCR ≤ 1.0 → 100, ≥ 1.5 → 0, linear between. -/
def score_dscr (dscr : ℚ) : ℚ :=
  if 3/2 ≤ dscr then 0
  else if dscr ≤ 1 then 100
  else riskClamp ((3/2 - dscr) / (1/2) * 100) 0 100

/-- `_score_cash_on_cash`: CoC (in percent) ≤ 4 → 100, ≥ 10 → 0, linear. -/
def score_cash_on_cash (coc : ℚ) : ℚ :=
  if 10 ≤ coc then 0
  else if coc ≤ 4 then 100
  else riskClamp ((10 - coc) / 6 * 100) 0 100

/-- `_score_vacancy`: linear around the market average, ±10 points wide. -/
def score_vacancy (deal_vacancy market_vacancy : ℚ) : ℚ :=
  riskClamp (50 + (deal_vacancy - market_vacancy) * 5) 0 100

/-- `_score_ltv`: LTV (percent) ≤ 80 → 0, ≥ 100 → 100, linear between. -/
def score_ltv (ltv : ℚ) : ℚ :=
  if ltv ≤ 80 then 0
  else if 100 ≤ ltv then 100
  else riskClamp ((ltv - 80) / 20 * 100) 0 100

/-- `_score_market_appreciation`: YoY ≥ 5 → 0, ≤ −2 → 100, linear. -/
def score_market_appreciation (yoy_pct : ℚ) : ℚ :=
  if 5 ≤ yoy_pct then 0
  else if yoy_pct ≤ -2 then 100
  else riskClamp ((5 - yoy_pct) / 7 * 100) 0 100

/-- `_score_rent_to_price`: ratio (percent) ≥ 1.0 → 0, ≤ 0.6 → 100, linear. -/
def score_rent_to_price (ratio : ℚ) : ℚ :=
  if 1 ≤ ratio then 0
  else if ratio ≤ 3/5 then 100
  else riskClamp ((1 - ratio) / (2/5) * 100) 0 100

/-- `_score_property_age(year_built)`: age measured from the CURRENT CLOCK
year (`datetime.now().year` in the source, an explicit parameter here);
`none` → 0, age ≤ 0 → 0, age ≥ 50 → min((age−50)·2+50, 100), else age/50·50. -/
def score_property_age (year_built : Option ℤ) (current_year : ℤ) : ℚ :=
  match year_built with
  | none => 0
  | some yb =>
    let age := current_year - yb
    if age ≤ 0 then 0
    else if 50 ≤ age then riskClamp (min (((age : ℚ) - 50) * 2 + 50) 100) 0 100
    else riskClamp ((age : ℚ) / 50 * 50) 0 100

/-- `_score_days_on_market`: ≤ 90 days → 0, linear to 100 at 180. -/
def score_days_on_market (days : ℤ) : ℚ :=
  if days ≤ 90 then 0
  else riskClamp (((days : ℚ) - 90) / 90 * 100) 0 100

/-- `_score_population_growth`: ≥ 2 → 0, ≤ −1 → 100, linear. -/
def score_population_growth (growth_pct : ℚ) : ℚ :=
  if 2 ≤ growth_pct then 0
  else if growth_pct ≤ -1 then 100
  else riskClamp ((2 - growth_pct) / 3 * 100) 0 100

/-- `_score_concentration`: ≤ 50% in one ZIP → 0, then (p−50)·2 capped. -/
def score_concentration (pct_in_zip : ℚ) : ℚ :=
  if pct_in_zip ≤ 50 then 0
  else riskClamp (min ((pct_in_zip - 50) * 2) 100) 0 100

/-- `_score_expense_ratio`: ≤ 55% of income → 0, then (r−55)·2 capped. -/
def score_expense_ratio (ratio : ℚ) : ℚ :=
  if ratio ≤ 55 then 0
  else riskClamp (min ((ratio - 55) * 2) 100) 0 100

/-- The `deal_metrics` keys read by `RiskEngine.calculate_risk_score`. -/
structure RiskDealMetrics where
  purchase_price : Option ℚ
  loan_amount : Option ℚ
  gross_monthly_rent : Option ℚ
  noi : Option ℚ
  vacancy_rate_pct : Option ℚ
  other_monthly_income : Option ℚ
  dscr : Option ℚ
  cash_on_cash : Option ℚ
  year_built : Option ℤ
  days_on_market : Option ℤ
deriving DecidableEq

/-- The `market_data` keys read by the risk engine. -/
structure RiskMarketData where
  avg_vacancy_rate_pct : Option ℚ
  yoy_appreciation_pct : Option ℚ
deriving DecidableEq

/-- The `portfolio_data` keys read by the risk engine. -/
structure RiskPortfolioData where
  population_growth_pct : Option ℚ
  pct_in_zip : Option ℚ
deriving DecidableEq

/-- `d.get(key, default)` followed by `_d`: plain dict default (a present 0
is kept), with a wholly absent dict behaving as `{}`. -/
def getOr (d : Option ℚ) (dflt : ℚ) : ℚ :=
  match d with
  | none => dflt
  | some v => v

/-- LTV (percent) derived inside `calculate_risk_score`. -/
def riskLtv (dm : RiskDealMetrics) : ℚ :=
  if 0 < dOpt dm.purchase_price then dOpt dm.loan_amount / dOpt dm.purchase_price * 100
  else 0

/-- Rent-to-price ratio (percent) derived inside `calculate_risk_score`. -/
def riskRentToPrice (dm : RiskDealMetrics) : ℚ :=
  if 0 < dOpt dm.purchase_price then
    dOpt dm.gross_monthly_rent * 12 / dOpt dm.purchase_price * 100
  else 0

/-- Annual effective gross income derived inside `calculate_risk_score`. -/
def riskEgiAnnual (dm : RiskDealMetrics) : ℚ :=
  (dOpt dm.gross_monthly_rent * (1 - dOpt dm.vacancy_rate_pct / 100)
    + dOpt dm.other_monthly_income) * 12

/-- Operating-expense percentage derived inside `calculate_risk_score`. -/
def riskExpenseRatioPct (dm : RiskDealMetrics) : ℚ :=
  if 0 < riskEgiAnnual dm then 100 * (1 - dOpt dm.noi / riskEgiAnnual dm) else 0

/-- DSCR factor score (a missing DSCR degrades to 0). -/
def riskDscrScore (dm : RiskDealMetrics) : ℚ :=
  match dm.dscr with
  | none => 0
  | some v => score_dscr v

/-- Cash-on-cash factor score (a missing value degrades to 0). -/
def riskCocScore (dm : RiskDealMetrics) : ℚ :=
  match dm.cash_on_cash with
  | none => 0
  | some v => score_cash_on_cash v

/-- Vacancy-vs-market factor score (market average defaults to 5). -/
def riskVacancyScore (dm : RiskDealMetrics) (md : Option RiskMarketData) : ℚ :=
  score_vacancy (dOpt dm.vacancy_rate_pct)
    (getOr ((md.getD (RiskMarketData.mk none none)).avg_vacancy_rate_pct) 5)

/-- Market-appreciation factor score (YoY defaults to 0). -/
def riskApprScore (md : Option RiskMarketData) : ℚ :=
  score_market_appreciation
    (getOr ((md.getD (RiskMarketData.mk none none)).yoy_appreciation_pct) 0)

/-- Property-age factor score: `_score_property_age(year_built or 0)` with
the ambient clock year passed explicitly. -/
def riskAgeScore (dm : RiskDealMetrics) (current_year : ℤ) : ℚ :=
  score_property_age (some ((dm.year_built).getD 0)) current_year

/-- Days-on-market factor score (absent → 0 days). -/
def riskDomScore (dm : RiskDealMetrics) : ℚ :=
  score_days_on_market ((dm.days_on_market).getD 0)

/-- Population-growth factor score (absent → 0). -/
def riskPopScore (pd : Option RiskPortfolioData) : ℚ :=
  score_population_growth
    (getOr ((pd.getD (RiskPortfolioData.mk none none)).population_growth_pct) 0)

/-- Concentration factor score (absent → 0). -/
def riskConcScore (pd : Option RiskPortfolioData) : ℚ :=
  score_concentration (getOr ((pd.getD (RiskPortfolioData.mk none none)).pct_in_zip) 0)

/-- Weighted total over the 11 factors with the `RISK_FACTORS` weights. -/
def riskWeightedTotal (dm : RiskDealMetrics) (md : Option RiskMarketData)
    (pd : Option RiskPortfolioData) (current_year : ℤ) : ℚ :=
  20/100 * riskDscrScore dm + 15/100 * riskCocScore dm
    + 10/100 * riskVacancyScore dm md + 10/100 * score_ltv (riskLtv dm)
    + 10/100 * riskApprScore md + 10/100 * score_rent_to_price (riskRentToPrice dm)
    + 5/100 * riskAgeScore dm current_year + 5/100 * riskDomScore dm
    + 5/100 * riskPopScore pd + 5/100 * riskConcScore pd
    + 5/100 * score_expense_ratio (riskExpenseRatioPct dm)

/-- Result of `calculate_risk_score`, with the per-factor breakdown
flattened into named fields. -/
structure RiskResult where
  score : ℚ
  label : String
  dscr_coverage : ℚ
  cash_on_cash : ℚ
  vacancy_vs_market : ℚ
  ltv_factor : ℚ
  market_appreciation : ℚ
  rent_to_price : ℚ
  property_age : ℚ
  days_on_market : ℚ
  population_growth : ℚ
  concentration_risk : ℚ
  expense_factor : ℚ
deriving DecidableEq

/-- `RiskEngine.calculate_risk_score(deal_metrics, market_data,
portfolio_data)`.  The source reads `datetime.now().year` inside
`_score_property_age`; that ambient clock value is the explicit
`current_year` parameter here. -/
def calculate_risk_score (dm : RiskDealMetrics) (md : Option RiskMarketData)
    (pd : Option RiskPortfolioData) (current_year : ℤ) : RiskResult :=
  let total := riskWeightedTotal dm md pd current_year
  let score := riskClamp total 0 100
  let label := if score ≤ 33 then "Low" else if score ≤ 66 then "Moderate" else "High"
  RiskResult.mk score label (riskDscrScore dm) (riskCocScore dm)
    (riskVacancyScore dm md) (score_ltv (riskLtv dm)) (riskApprScore md)
    (score_rent_to_price (riskRentToPrice dm)) (riskAgeScore dm current_year)
    (riskDomScore dm) (riskPopScore pd) (riskConcScore pd)
    (score_expense_ratio (riskExpenseRatioPct dm))

/-! ## Concrete inputs used by witnesses and counterexamples -/

/-- The example deal of the spec: purchase 185000, 20% down, loan 148000,
7% for 30 years, rent 1800, vacancy 5%, tax 280, insurance 120,
maintenance 5%, management 10%, HOA 0, utilities 0, closing costs 5550. -/
def exampleDeal : DealInputs :=
  DealInputs.mk (some 185000) (some 20) (some 148000) (some 7) (some 30) none
    (some 1800) (some 5) none (some 280) (some 120) (some 5) (some 10)
    (some 0) (some 0) (some 5550) none none none none none


/-- All-cash deal used by the C1 counterexample: purchase 100000, no loan,
invested 20000, annual cash flow 5000. -/
def c1Deal : DealInputs :=
  DealInputs.mk (some 100000) none (some 0) (some 0) none none
    none none none none none none none none none none none none none
    (some 20000) (some 5000)


/-- Risk-engine metrics used by the C4 counterexample: a 2000-built
property, everything else minimal. -/
def c4Metrics : RiskDealMetrics :=
  RiskDealMetrics.mk none none none none none none none none (some 2000) none


/-- Risk-engine metrics for the C5 counterexample: DSCR 1.23415 makes the
weighted total 10.634 (not a whole number of cents), all other factor
scores 0. -/
def c5Metrics : RiskDealMetrics :=
  RiskDealMetrics.mk (some 100000) (some 0) (some 1000) (some 12000) (some 0)
    none (some (123415/100000)) none (some 2025) none

def c5Market : RiskMarketData := RiskMarketData.mk (some 15) (some 5)

def c5Portfolio : RiskPortfolioData := RiskPortfolioData.mk (some 2) (some 0)


/-! ## Helper lemmas -/

theorem roundHalfUp_intCast (n : ℤ) : roundHalfUp (n : ℚ) = n := by
  unfold roundHalfUp
  have hhalf : ⌊(1/2 : ℚ)⌋ = 0 := by norm_num
  split
  · rw [add_comm, Int.floor_add_int, hhalf, zero_add]
  · have : (-(n : ℚ) + 1/2) = 1/2 + ((-n : ℤ) : ℚ) := by push_cast; ring
    rw [this, Int.floor_add_int, hhalf, zero_add, neg_neg]

theorem quantize2_cent (x : ℚ) : Cent (quantize2 x) := ⟨roundHalfUp (x * 100), rfl⟩

theorem cent_quantize2_eq {x : ℚ} (h : Cent x) : quantize2 x = x := by
  obtain ⟨n, rfl⟩ := h
  unfold quantize2
  have : ((n : ℚ) / 100 * 100) = (n : ℚ) := by field_simp
  rw [this, roundHalfUp_intCast]

theorem cent_sub {x y : ℚ} (hx : Cent x) (hy : Cent y) : Cent (x - y) := by
  obtain ⟨a, rfl⟩ := hx
  obtain ⟨b, rfl⟩ := hy
  exact ⟨a - b, by push_cast; ring⟩

theorem cent_floor0 {x : ℚ} (h : Cent x) : Cent (floor0 x) := by
  unfold floor0
  split
  · exact ⟨0, by norm_num⟩
  · exact h

theorem le_floor0 (x : ℚ) : x ≤ floor0 x := by
  unfold floor0
  split
  · linarith
  · exact le_refl x

theorem amortLoopPos_length (payment r : ℚ) (k : ℕ) :
    ∀ (i : ℕ) (rem : ℚ), (amortLoopPos payment r k i rem).length = k := by
  induction k with
  | zero => intro i rem; rfl
  | succ k ih => intro i rem; simp only [amortLoopPos, List.length_cons, ih]

theorem amortLoopZero_length (payment per : ℚ) (k : ℕ) :
    ∀ (i : ℕ) (rem : ℚ), (amortLoopZero payment per k i rem).length = k := by
  induction k with
  | zero => intro i rem; rfl
  | succ k ih => intro i rem; simp only [amortLoopZero, List.length_cons, ih]

theorem schedule_length (loan rate : ℚ) (term : ℤ) (h : loan ≠ 0) :
    (calculate_amortization_schedule loan rate term).length = (term * 12).toNat := by
  unfold calculate_amortization_schedule
  rw [if_neg h]
  split
  · exact amortLoopZero_length _ _ _ _ _
  · exact amortLoopPos_length _ _ _ _ _

theorem lastBalanceFrom_indep (s : List AmortRow) (d1 d2 : ℚ) (h : s ≠ []) :
    lastBalanceFrom s d1 = lastBalanceFrom s d2 := by
  cases s with
  | nil => exact absurd rfl h
  | cons a l => rfl

theorem amortLoopPos_succ (payment r : ℚ) (k i : ℕ) (rem : ℚ) :
    amortLoopPos payment r (k+1) i rem =
      AmortRow.mk i payment (quantize2 (payment - quantize2 (rem * r)))
          (quantize2 (rem * r))
          (quantize2 (floor0 (rem - quantize2 (payment - quantize2 (rem * r)))))
        :: amortLoopPos payment r k (i+1)
            (floor0 (rem - quantize2 (payment - quantize2 (rem * r)))) := rfl

theorem amortLoopZero_succ (payment per : ℚ) (k i : ℕ) (rem : ℚ) :
    amortLoopZero payment per (k+1) i rem =
      AmortRow.mk i payment (if k = 0 then rem else per) 0
          (quantize2 (floor0 (rem - (if k = 0 then rem else per))))
        :: amortLoopZero payment per k (i+1)
            (floor0 (rem - (if k = 0 then rem else per))) := rfl

theorem amortLoopPos_acct (payment r : ℚ) (k : ℕ) :
    ∀ (i : ℕ) (rem : ℚ), Cent rem →
      rem ≤ sumPrincipal (amortLoopPos payment r k i rem)
        + lastBalanceFrom (amortLoopPos payment r k i rem) rem := by
  induction k with
  | zero =>
    intro i rem _
    simp [amortLoopPos, sumPrincipal, lastBalanceFrom]
  | succ k ih =>
    intro i rem hc
    rw [amortLoopPos_succ]
    have hcp : Cent (quantize2 (payment - quantize2 (rem * r))) := quantize2_cent _
    have hc2 : Cent (floor0 (rem - quantize2 (payment - quantize2 (rem * r)))) :=
      cent_floor0 (cent_sub hc hcp)
    have hge : rem - quantize2 (payment - quantize2 (rem * r))
        ≤ floor0 (rem - quantize2 (payment - quantize2 (rem * r))) := le_floor0 _
    have hIH := ih (i+1) _ hc2
    show rem ≤ quantize2 (payment - quantize2 (rem * r))
        + sumPrincipal (amortLoopPos payment r k (i+1) _)
        + lastBalanceFrom (amortLoopPos payment r k (i+1) _)
            (quantize2 (floor0 (rem - quantize2 (payment - quantize2 (rem * r)))))
    rw [cent_quantize2_eq hc2]
    linarith

theorem amortLoopZero_acct (payment per : ℚ) (hper : Cent per) (k : ℕ) :
    ∀ (i : ℕ) (rem : ℚ), Cent rem →
      rem ≤ sumPrincipal (amortLoopZero payment per k i rem)
        + lastBalanceFrom (amortLoopZero payment per k i rem) rem := by
  induction k with
  | zero =>
    intro i rem _
    simp [amortLoopZero, sumPrincipal, lastBalanceFrom]
  | succ k ih =>
    intro i rem hc
    rw [amortLoopZero_succ]
    have hcp : Cent (if k = 0 then rem else per) := by
      split
      · exact hc
      · exact hper
    have hc2 : Cent (floor0 (rem - (if k = 0 then rem else per))) :=
      cent_floor0 (cent_sub hc hcp)
    have hge : rem - (if k = 0 then rem else per)
        ≤ floor0 (rem - (if k = 0 then rem else per)) := le_floor0 _
    have hIH := ih (i+1) _ hc2
    show rem ≤ (if k = 0 then rem else per)
        + sumPrincipal (amortLoopZero payment per k (i+1) _)
        + lastBalanceFrom (amortLoopZero payment per k (i+1) _)
            (quantize2 (floor0 (rem - (if k = 0 then rem else per))))
    rw [cent_quantize2_eq hc2]
    linarith

theorem quantize2_zero : quantize2 0 = 0 := by with_unfolding_all rfl

theorem amortLoopZero_lastBal (payment per : ℚ) (k : ℕ) :
    ∀ (i : ℕ) (rem d : ℚ),
      lastBalanceFrom (amortLoopZero payment per (k+1) i rem) d = 0 := by
  induction k with
  | zero =>
    intro i rem d
    rw [amortLoopZero_succ]
    have h1 : (if (0 : ℕ) = 0 then rem else per) = rem := if_pos rfl
    rw [h1, sub_self]
    have h3 : floor0 0 = 0 := by
      unfold floor0
      simp
    rw [h3, quantize2_zero]
    rfl
  | succ k ih =>
    intro i rem d
    rw [amortLoopZero_succ]
    exact ih (i+1) (floor0 (rem - (if k + 1 = 0 then rem else per)))
      (quantize2 (floor0 (rem - (if k + 1 = 0 then rem else per))))

theorem schedule_eq_pos (loan rate : ℚ) (term : ℤ) (hne : loan ≠ 0)
    (hr0 : ¬ rate / 100 / 12 = 0) :
    calculate_amortization_schedule loan rate term =
      amortLoopPos (calculate_monthly_mortgage loan rate term) (rate / 100 / 12)
        ((term * 12).toNat) 1 loan := by
  simp only [calculate_amortization_schedule]
  rw [if_neg hne, if_neg hr0]

theorem schedule_eq_zero (loan rate : ℚ) (term : ℤ) (hne : loan ≠ 0)
    (hr0 : rate / 100 / 12 = 0) :
    calculate_amortization_schedule loan rate term =
      amortLoopZero (calculate_monthly_mortgage loan rate term)
        (quantize2 (loan / (((term * 12).toNat : ℕ) : ℚ)))
        ((term * 12).toNat) 1 loan := by
  simp only [calculate_amortization_schedule]
  rw [if_neg hne, if_pos hr0]

/-! ## Claim theorems -/

/-- **C1, counterexample.**  The claim says the cash-flow sequence handed to
the IRR solver has `N + 1` entries with the exit proceeds folded into the
final annual cash flow.  On the all-cash deal `c1Deal` with a 5-year hold
the sequence `calculate_irr_projection` builds has 7 = 5 + 2 entries and is
not the 6-entry folded sequence `[-20000, 5000, 5000, 5000, 5000, 105000]`. -/
theorem c1_counterexample :
    (irrCashFlows c1Deal 5).length = 7 ∧
    irrCashFlows c1Deal 5 ≠
      [-(20000 : ℚ), 5000, 5000, 5000, 5000, 5000 + 100000] := by
  have hlen : (irrCashFlows c1Deal 5).length = 7 := by with_unfolding_all rfl
  refine ⟨hlen, fun h => ?_⟩
  rw [h] at hlen
  norm_num at hlen

/-- **C1, amended.**  For every deal input with a non-negative interest rate
(the source raises on a negative rate before reaching the solver) and every
hold horizon `N`, the sequence `calculate_irr_projection` passes to
`calculate_irr` is the initial outlay (−total_cash_invested, with the
purchase price substituted when that is ≤ 0), followed by exactly `N`
annual-cash-flow entries, followed by the exit proceeds
`sale_price − selling_costs − remaining_balance_at_N` **appended as one
additional final entry** — `N + 2` entries in total, the exit proceeds not
folded into the last annual cash flow.  Sale price defaults to the
after-repair value or the purchase price, selling costs default to 0. -/
theorem c1_theorem (p : DealInputs) (hold_years : ℕ)
    (hrate : 0 ≤ dOpt p.interest_rate) :
    irrCashFlows p hold_years =
      -(irrInitialOutlay p)
        :: (List.replicate hold_years (dOpt p.annual_cash_flow)
          ++ [irrExitProceeds p hold_years]) ∧
    (irrCashFlows p hold_years).length = hold_years + 2 := by
  refine ⟨rfl, ?_⟩
  simp only [irrCashFlows, List.length_cons, List.length_append,
    List.length_replicate, List.length_nil]

/-- **C1, witness.**  The amended statement instantiated on `c1Deal` with a
5-year hold. -/
theorem c1_witness :
    irrCashFlows c1Deal 5 =
      -(irrInitialOutlay c1Deal)
        :: (List.replicate 5 (dOpt c1Deal.annual_cash_flow)
          ++ [irrExitProceeds c1Deal 5]) ∧
    (irrCashFlows c1Deal 5).length = 5 + 2 :=
  c1_theorem c1Deal 5 (by norm_num [c1Deal, dOpt])

set_option maxRecDepth 100000 in
/-- **C2, counterexample.**  For loan 10000 at 5% over 1 year, the schedule's
final row has remaining balance 0.05 (not 0) and the summed principal falls
short of the loan by 0.05, more than one cent: the monthly payment rounds
down and the residual is never absorbed. -/
theorem c2_counterexample :
    lastRemainingBalance (calculate_amortization_schedule 10000 5 1) ≠ 0 ∧
    1/100 < 10000 - sumPrincipal (calculate_amortization_schedule 10000 5 1) := by
  have h1 : lastRemainingBalance (calculate_amortization_schedule 10000 5 1)
      = 1/20 := by with_unfolding_all rfl
  have h2 : sumPrincipal (calculate_amortization_schedule 10000 5 1)
      = 999995/100 := by with_unfolding_all rfl
  rw [h1, h2]
  norm_num

/-- **C2, amended.**  For every loan `L > 0` (a whole number of cents),
rate `r ≥ 0` and term `T ≥ 1`, the full schedule has `T × 12` rows and
satisfies the accounting bound `L ≤ Σ principal + final remaining balance`;
for `r = 0` the final row's remaining balance is exactly 0.  The claim's
stronger properties fail: the final balance can be a positive rounding
residual (so not 0) and `Σ principal` can then fall short of `L` by more
than one cent (see the counterexample), and the bound can also be strict
in the other direction, since flooring the running balance lets the
recorded principal overshoot the loan. -/
theorem c2_theorem (loan rate : ℚ) (term : ℤ) (hl : 0 < loan) (ht : 1 ≤ term)
    (hr : 0 ≤ rate) (hc : Cent loan) :
    (calculate_amortization_schedule loan rate term).length = (term * 12).toNat ∧
    loan ≤ sumPrincipal (calculate_amortization_schedule loan rate term)
      + lastRemainingBalance (calculate_amortization_schedule loan rate term) ∧
    (rate = 0 → lastRemainingBalance (calculate_amortization_schedule loan rate term) = 0) := by
  have hne : loan ≠ 0 := ne_of_gt hl
  have hlen := schedule_length loan rate term hne
  have hkpos : (term * 12).toNat ≠ 0 := by
    have h12 : (12 : ℤ) ≤ term * 12 := by linarith
    omega
  have hsne : calculate_amortization_schedule loan rate term ≠ [] := by
    intro h
    rw [h] at hlen
    exact hkpos hlen.symm
  refine ⟨hlen, ?_, ?_⟩
  · by_cases hr0 : rate / 100 / 12 = 0
    · rw [schedule_eq_zero loan rate term hne hr0] at hsne ⊢
      have hacct := amortLoopZero_acct (calculate_monthly_mortgage loan rate term)
        (quantize2 (loan / (((term * 12).toNat : ℕ) : ℚ))) (quantize2_cent _)
        ((term * 12).toNat) 1 loan hc
      rw [show lastBalanceFrom
          (amortLoopZero (calculate_monthly_mortgage loan rate term)
            (quantize2 (loan / (((term * 12).toNat : ℕ) : ℚ)))
            ((term * 12).toNat) 1 loan) loan
        = lastBalanceFrom
          (amortLoopZero (calculate_monthly_mortgage loan rate term)
            (quantize2 (loan / (((term * 12).toNat : ℕ) : ℚ)))
            ((term * 12).toNat) 1 loan) 0
        from lastBalanceFrom_indep _ loan 0 hsne] at hacct
      exact hacct
    · rw [schedule_eq_pos loan rate term hne hr0] at hsne ⊢
      have hacct := amortLoopPos_acct (calculate_monthly_mortgage loan rate term)
        (rate / 100 / 12) ((term * 12).toNat) 1 loan hc
      rw [show lastBalanceFrom
          (amortLoopPos (calculate_monthly_mortgage loan rate term)
            (rate / 100 / 12) ((term * 12).toNat) 1 loan) loan
        = lastBalanceFrom
          (amortLoopPos (calculate_monthly_mortgage loan rate term)
            (rate / 100 / 12) ((term * 12).toNat) 1 loan) 0
        from lastBalanceFrom_indep _ loan 0 hsne] at hacct
      exact hacct
  · intro h0
    have hr0 : rate / 100 / 12 = 0 := by rw [h0]; norm_num
    rw [schedule_eq_zero loan rate term hne hr0]
    obtain ⟨m, hm⟩ := Nat.exists_eq_succ_of_ne_zero hkpos
    rw [hm]
    exact amortLoopZero_lastBal _ _ m 1 loan 0

/-- **C2, witness.**  The amended statement instantiated on a 1200 loan at
0% over 1 year (12 rows, exact principal accounting, final balance 0). -/
theorem c2_witness :
    Cent (1200 : ℚ) ∧
    ((calculate_amortization_schedule 1200 0 1).length = ((1 : ℤ) * 12).toNat ∧
      (1200 : ℚ) ≤ sumPrincipal (calculate_amortization_schedule 1200 0 1)
        + lastRemainingBalance (calculate_amortization_schedule 1200 0 1) ∧
      ((0 : ℚ) = 0 → lastRemainingBalance (calculate_amortization_schedule 1200 0 1) = 0)) :=
  ⟨⟨120000, by norm_num⟩,
    c2_theorem 1200 0 1 (by norm_num) (by norm_num) (by norm_num) ⟨120000, by norm_num⟩⟩

/-- **C3, counterexample.**  On the spec's example inputs, `calculate_all`
returns cap rate `NOI / price = 12480 / 185000` rounded to 4 places, which
is 0.0675, not the claimed 0.0739 (0.0739 is the cap rate of the NOI 13680
that these inputs do not produce). -/
theorem c3_counterexample :
    (calcAllCore exampleDeal).cap_rate = 0.0675 ∧ (0.0675 : ℚ) ≠ 0.0739 := by
  constructor
  · with_unfolding_all rfl
  · norm_num

/-- **C3, amended.**  On the example inputs (purchase 185000, 20% down,
loan 148000, 7% for 30 years, rent 1800, vacancy 5%, tax 280, insurance
120, maintenance 5%, management 10%, HOA 0, utilities 0, closing 5550),
`calculate_all` returns annual NOI 12480.00, cap rate 0.0675, GRM 8.56 and
total cash invested 42550.00. -/
theorem c3_theorem :
    (calcAllCore exampleDeal).noi = 12480 ∧
    (calcAllCore exampleDeal).cap_rate = 0.0675 ∧
    (calcAllCore exampleDeal).grm = 8.56 ∧
    (calcAllCore exampleDeal).total_cash_invested = 42550 := by
  refine ⟨?_, ?_, ?_, ?_⟩ <;> with_unfolding_all rfl

theorem riskClamp_eq (t : ℚ) :
    riskClamp t 0 100 = quantize2 (max 0 (min 100 t)) := by
  unfold riskClamp
  split_ifs with h1 h2
  · rw [min_eq_right (by linarith : t ≤ 100), max_eq_left (by linarith : t ≤ 0)]
  · rw [min_eq_left (by linarith : (100 : ℚ) ≤ t),
      max_eq_right (by norm_num : (0 : ℚ) ≤ 100)]
  · rw [min_eq_right (by linarith : t ≤ 100),
      max_eq_right (by linarith : (0 : ℚ) ≤ t)]

theorem risk_score_def (dm : RiskDealMetrics) (md : Option RiskMarketData)
    (pd : Option RiskPortfolioData) (y : ℤ) :
    (calculate_risk_score dm md pd y).score
      = riskClamp (riskWeightedTotal dm md pd y) 0 100 := rfl

theorem risk_label_def (dm : RiskDealMetrics) (md : Option RiskMarketData)
    (pd : Option RiskPortfolioData) (y : ℤ) :
    (calculate_risk_score dm md pd y).label
      = (if (calculate_risk_score dm md pd y).score ≤ 33 then "Low"
         else if (calculate_risk_score dm md pd y).score ≤ 66 then "Moderate"
         else "High") := rfl

theorem risk_wsum_def (dm : RiskDealMetrics) (md : Option RiskMarketData)
    (pd : Option RiskPortfolioData) (y : ℤ) :
    20/100 * (calculate_risk_score dm md pd y).dscr_coverage
      + 15/100 * (calculate_risk_score dm md pd y).cash_on_cash
      + 10/100 * (calculate_risk_score dm md pd y).vacancy_vs_market
      + 10/100 * (calculate_risk_score dm md pd y).ltv_factor
      + 10/100 * (calculate_risk_score dm md pd y).market_appreciation
      + 10/100 * (calculate_risk_score dm md pd y).rent_to_price
      + 5/100 * (calculate_risk_score dm md pd y).property_age
      + 5/100 * (calculate_risk_score dm md pd y).days_on_market
      + 5/100 * (calculate_risk_score dm md pd y).population_growth
      + 5/100 * (calculate_risk_score dm md pd y).concentration_risk
      + 5/100 * (calculate_risk_score dm md pd y).expense_factor
      = riskWeightedTotal dm md pd y := rfl

/-- **C4, counterexample.**  `calculate_risk_score` is not independent of
the ambient clock: on `c4Metrics` (a 2000-built property) the very same
inputs give composite score 24.23 when the clock year is 2025 but 27.98
when it is 2080, because `_score_property_age` reads `datetime.now().year`. -/
theorem c4_counterexample :
    (calculate_risk_score c4Metrics none none 2025).score ≠
      (calculate_risk_score c4Metrics none none 2080).score := by
  have h1 : (calculate_risk_score c4Metrics none none 2025).score = 2423/100 := by
    with_unfolding_all rfl
  have h2 : (calculate_risk_score c4Metrics none none 2080).score = 1399/50 := by
    with_unfolding_all rfl
  rw [h1, h2]
  norm_num

/-- **C4, amended.**  `calculate_risk_score` is a pure function of its
inputs **and the current clock year**: the clock enters only through the
property-age factor, so any two invocations with the same deal, market and
portfolio data whose clock years yield the same property-age score return
identical results (in particular it is deterministic at any fixed clock
year; all other ten factors never depend on the clock). -/
theorem c4_theorem (dm : RiskDealMetrics) (md : Option RiskMarketData)
    (pd : Option RiskPortfolioData) (y1 y2 : ℤ)
    (h : riskAgeScore dm y1 = riskAgeScore dm y2) :
    calculate_risk_score dm md pd y1 = calculate_risk_score dm md pd y2 := by
  unfold calculate_risk_score riskWeightedTotal
  rw [h]

/-- **C4, witness.**  The amended statement instantiated on `c4Metrics`
with clock years 2125 and 2126 (property-age score 100 in both). -/
theorem c4_witness :
    riskAgeScore c4Metrics 2125 = riskAgeScore c4Metrics 2126 ∧
    calculate_risk_score c4Metrics none none 2125
      = calculate_risk_score c4Metrics none none 2126 := by
  have h : riskAgeScore c4Metrics 2125 = riskAgeScore c4Metrics 2126 := by
    with_unfolding_all rfl
  exact ⟨h, c4_theorem c4Metrics none none 2125 2126 h⟩

/-- **C5, counterexample.**  On `c5Metrics` (DSCR 1.23415, every other
factor score 0) the weighted sum of the 11 returned factor scores is
10.634, which lies in [0,100] (so clamping is the identity), yet the
returned composite score is 10.63: the engine also rounds to 2 decimals,
so the score does not equal the clamped weighted sum. -/
theorem c5_counterexample :
    (calculate_risk_score c5Metrics (some c5Market) (some c5Portfolio) 2025).score ≠
      20/100 * (calculate_risk_score c5Metrics (some c5Market) (some c5Portfolio) 2025).dscr_coverage
      + 15/100 * (calculate_risk_score c5Metrics (some c5Market) (some c5Portfolio) 2025).cash_on_cash
      + 10/100 * (calculate_risk_score c5Metrics (some c5Market) (some c5Portfolio) 2025).vacancy_vs_market
      + 10/100 * (calculate_risk_score c5Metrics (some c5Market) (some c5Portfolio) 2025).ltv_factor
      + 10/100 * (calculate_risk_score c5Metrics (some c5Market) (some c5Portfolio) 2025).market_appreciation
      + 10/100 * (calculate_risk_score c5Metrics (some c5Market) (some c5Portfolio) 2025).rent_to_price
      + 5/100 * (calculate_risk_score c5Metrics (some c5Market) (some c5Portfolio) 2025).property_age
      + 5/100 * (calculate_risk_score c5Metrics (some c5Market) (some c5Portfolio) 2025).days_on_market
      + 5/100 * (calculate_risk_score c5Metrics (some c5Market) (some c5Portfolio) 2025).population_growth
      + 5/100 * (calculate_risk_score c5Metrics (some c5Market) (some c5Portfolio) 2025).concentration_risk
      + 5/100 * (calculate_risk_score c5Metrics (some c5Market) (some c5Portfolio) 2025).expense_factor ∧
    (0 : ℚ) ≤ riskWeightedTotal c5Metrics (some c5Market) (some c5Portfolio) 2025 ∧
    riskWeightedTotal c5Metrics (some c5Market) (some c5Portfolio) 2025 ≤ 100 := by
  have hsum : riskWeightedTotal c5Metrics (some c5Market) (some c5Portfolio) 2025
      = 5317/500 := by with_unfolding_all rfl
  have hscore : (calculate_risk_score c5Metrics (some c5Market) (some c5Portfolio) 2025).score
      = 1063/100 := by with_unfolding_all rfl
  refine ⟨?_, ?_, ?_⟩
  · rw [risk_wsum_def, hscore, hsum]
    norm_num
  · rw [hsum]
    norm_num
  · rw [hsum]
    norm_num

/-- **C5, amended.**  The composite score equals the weighted sum of the 11
returned per-factor scores with the fixed weights (DSCR 0.20,
cash-on-cash 0.15, vacancy 0.10, LTV 0.10, appreciation 0.10,
rent-to-price 0.10, five factors at 0.05 each — summing to 1.00), clamped
to [0,100] **and rounded to 2 decimal places (half-up)**; the label is Low
whenever the score is ≤ 33, Moderate whenever 33 < score ≤ 66, and High
whenever score > 66 (hence Low for ≤ 33, Moderate on 34–66, High for
≥ 67). -/
theorem c5_theorem (dm : RiskDealMetrics) (md : Option RiskMarketData)
    (pd : Option RiskPortfolioData) (y : ℤ) :
    (calculate_risk_score dm md pd y).score =
      quantize2 (max 0 (min 100
        (20/100 * (calculate_risk_score dm md pd y).dscr_coverage
          + 15/100 * (calculate_risk_score dm md pd y).cash_on_cash
          + 10/100 * (calculate_risk_score dm md pd y).vacancy_vs_market
          + 10/100 * (calculate_risk_score dm md pd y).ltv_factor
          + 10/100 * (calculate_risk_score dm md pd y).market_appreciation
          + 10/100 * (calculate_risk_score dm md pd y).rent_to_price
          + 5/100 * (calculate_risk_score dm md pd y).property_age
          + 5/100 * (calculate_risk_score dm md pd y).days_on_market
          + 5/100 * (calculate_risk_score dm md pd y).population_growth
          + 5/100 * (calculate_risk_score dm md pd y).concentration_risk
          + 5/100 * (calculate_risk_score dm md pd y).expense_factor))) ∧
    ((calculate_risk_score dm md pd y).score ≤ 33 →
      (calculate_risk_score dm md pd y).label = "Low") ∧
    (33 < (calculate_risk_score dm md pd y).score →
      (calculate_risk_score dm md pd y).score ≤ 66 →
      (calculate_risk_score dm md pd y).label = "Moderate") ∧
    (66 < (calculate_risk_score dm md pd y).score →
      (calculate_risk_score dm md pd y).label = "High") := by
  refine ⟨?_, ?_, ?_, ?_⟩
  · rw [risk_wsum_def, risk_score_def]
    exact riskClamp_eq _
  · intro h
    rw [risk_label_def, if_pos h]
  · intro h1 h2
    rw [risk_label_def, if_neg (not_le.mpr h1), if_pos h2]
  · intro h
    rw [risk_label_def, if_neg (not_le.mpr ((by norm_num : (33 : ℚ) < 66).trans h)),
      if_neg (not_le.mpr h)]

/-- **C5, witness.**  The amended statement's Low branch instantiated on
`c4Metrics` at clock year 2300 (score 27.98 ≤ 33, label "Low"). -/
theorem c5_witness :
    (calculate_risk_score c4Metrics none none 2300).score ≤ 33 ∧
    (calculate_risk_score c4Metrics none none 2300).label = "Low" := by
  have h : (calculate_risk_score c4Metrics none none 2300).score ≤ 33 := by
    have hv : (calculate_risk_score c4Metrics none none 2300).score = 1399/50 := by
      with_unfolding_all rfl
    rw [hv]
    norm_num
  exact ⟨h, (c5_theorem c4Metrics none none 2300).2.1 h⟩

/-- **C6.**  The risk factor scoring functions take exactly the claimed
values at the named boundaries, inclusive on the safe side: DSCR 1.0 → 100
and 1.5 → 0; cash-on-cash 4% → 100 and 10% → 0; LTV 80% → 0;
days-on-market 90 → 0; expense ratio 55% → 0; concentration 50% → 0. -/
theorem c6_theorem :
    score_dscr 1 = 100 ∧ score_dscr (3/2) = 0 ∧
    score_cash_on_cash 4 = 100 ∧ score_cash_on_cash 10 = 0 ∧
    score_ltv 80 = 0 ∧ score_days_on_market 90 = 0 ∧
    score_expense_ratio 55 = 0 ∧ score_concentration 50 = 0 := by
  refine ⟨?_, ?_, ?_, ?_, ?_, ?_, ?_, ?_⟩ <;> with_unfolding_all rfl

/-- **C7.**  For every deal `calculate_all` computes (positive price and
rent), the DSCR it returns is absent (`none`) exactly when the annual debt
service (monthly mortgage × 12, rounded to cents) is zero, and otherwise
equals `NOI / annual debt service` rounded to 4 places; the absence is a
returned value, never a raised error. -/
theorem c7_theorem (p : DealInputs) (hp : 0 < dOpt p.purchase_price)
    (hrent : 0 < annualGrossRentOf p) :
    (((calcAllCore p).dscr = none) ↔ annualDebtServiceOf p = 0) ∧
    (annualDebtServiceOf p ≠ 0 →
      (calcAllCore p).dscr = some (quantize4 (noiOf p / annualDebtServiceOf p))) := by
  have hd : (calcAllCore p).dscr
      = calculate_dscr (noiOf p) (annualDebtServiceOf p) := rfl
  rw [hd]
  unfold calculate_dscr
  by_cases h : annualDebtServiceOf p = 0
  · rw [if_pos h]
    exact ⟨⟨fun _ => h, fun _ => rfl⟩, fun hne => absurd h hne⟩
  · rw [if_neg h]
    refine ⟨⟨fun hsome => absurd hsome (Option.some_ne_none _), fun h0 => absurd h0 h⟩,
      fun _ => rfl⟩

/-- **C7, witness.**  The statement instantiated on the example deal
(price 185000 > 0, annual rent 21600 > 0). -/
theorem c7_witness :
    (0 : ℚ) < dOpt exampleDeal.purchase_price ∧
    (0 : ℚ) < annualGrossRentOf exampleDeal ∧
    ((((calcAllCore exampleDeal).dscr = none) ↔ annualDebtServiceOf exampleDeal = 0) ∧
      (annualDebtServiceOf exampleDeal ≠ 0 →
        (calcAllCore exampleDeal).dscr
          = some (quantize4 (noiOf exampleDeal / annualDebtServiceOf exampleDeal)))) := by
  have hp : (0 : ℚ) < dOpt exampleDeal.purchase_price := by
    norm_num [exampleDeal, dOpt]
  have hrent : (0 : ℚ) < annualGrossRentOf exampleDeal := by
    have hv : annualGrossRentOf exampleDeal = 21600 := by with_unfolding_all rfl
    rw [hv]
    norm_num
  exact ⟨hp, hrent, c7_theorem exampleDeal hp hrent⟩

theorem yearlyNetCashflows_length (gross_monthly_rent base_monthly_expenses
    monthly_mortgage annual_rent_growth_pct annual_expense_growth_pct : ℚ)
    (projection_years : ℕ) :
    (yearlyNetCashflows gross_monthly_rent base_monthly_expenses monthly_mortgage
      annual_rent_growth_pct annual_expense_growth_pct projection_years).length
      = projection_years := by
  simp [yearlyNetCashflows]

theorem compute_irr_none_iff (total_cash_invested : ℚ)
    (cfs bals vals : List ℚ) (hold_years : ℕ) (selling_cost_pct : ℚ) :
    compute_irr total_cash_invested cfs bals vals hold_years selling_cost_pct = none ↔
      (cfs.length < hold_years ∨ total_cash_invested ≤ 0 ∨
        calculate_irr (projIrrFlows total_cash_invested cfs bals vals hold_years
          selling_cost_pct) = none) := by
  unfold compute_irr
  by_cases h1 : cfs.length < hold_years
  · rw [if_pos h1]
    exact ⟨fun _ => Or.inl h1, fun _ => rfl⟩
  · rw [if_neg h1]
    by_cases h2 : total_cash_invested ≤ 0
    · rw [if_pos h2]
      exact ⟨fun _ => Or.inr (Or.inl h2), fun _ => rfl⟩
    · rw [if_neg h2]
      constructor
      · intro h
        exact Or.inr (Or.inr h)
      · rintro (h | h | h)
        · exact absurd h h1
        · exact absurd h h2
        · exact h

/-- **C8.**  For every projection run (with the schedule's guard conditions,
rate ≥ 0 and term ≥ 1, satisfied), the N-year IRR (N = 5, 10) is reported
as absent (`none`, never a raised error) exactly when the horizon has fewer
than N years, or total cash invested is ≤ 0, or the IRR solver fails on the
actual cash-flow sequence; in particular a 5-year run always reports the
10-year IRR as absent. -/
theorem c8_theorem (purchase_price loan_amount annual_interest_rate : ℚ)
    (loan_term_years : ℤ) (monthly_mortgage gross_monthly_rent
    base_monthly_expenses total_cash_invested : ℚ) (projection_years : ℕ)
    (annual_appreciation_pct annual_rent_growth_pct annual_expense_growth_pct
    selling_cost_pct : ℚ)
    (hrate : 0 ≤ annual_interest_rate) (hterm : 1 ≤ loan_term_years) :
    ((compute_yearly_projections purchase_price loan_amount annual_interest_rate
        loan_term_years monthly_mortgage gross_monthly_rent base_monthly_expenses
        total_cash_invested projection_years annual_appreciation_pct
        annual_rent_growth_pct annual_expense_growth_pct selling_cost_pct).irr_5yr = none
      ↔ (projection_years < 5 ∨ total_cash_invested ≤ 0 ∨
          calculate_irr (projIrrFlows total_cash_invested
            (yearlyNetCashflows gross_monthly_rent base_monthly_expenses monthly_mortgage
              annual_rent_growth_pct annual_expense_growth_pct projection_years)
            (yearlyBalances loan_amount annual_interest_rate loan_term_years projection_years)
            (yearlyValues purchase_price annual_appreciation_pct projection_years)
            5 selling_cost_pct) = none)) ∧
    ((compute_yearly_projections purchase_price loan_amount annual_interest_rate
        loan_term_years monthly_mortgage gross_monthly_rent base_monthly_expenses
        total_cash_invested projection_years annual_appreciation_pct
        annual_rent_growth_pct annual_expense_growth_pct selling_cost_pct).irr_10yr = none
      ↔ (projection_years < 10 ∨ total_cash_invested ≤ 0 ∨
          calculate_irr (projIrrFlows total_cash_invested
            (yearlyNetCashflows gross_monthly_rent base_monthly_expenses monthly_mortgage
              annual_rent_growth_pct annual_expense_growth_pct projection_years)
            (yearlyBalances loan_amount annual_interest_rate loan_term_years projection_years)
            (yearlyValues purchase_price annual_appreciation_pct projection_years)
            10 selling_cost_pct) = none)) ∧
    (projection_years = 5 →
      (compute_yearly_projections purchase_price loan_amount annual_interest_rate
        loan_term_years monthly_mortgage gross_monthly_rent base_monthly_expenses
        total_cash_invested projection_years annual_appreciation_pct
        annual_rent_growth_pct annual_expense_growth_pct selling_cost_pct).irr_10yr = none) := by
  have hlen := yearlyNetCashflows_length gross_monthly_rent base_monthly_expenses
    monthly_mortgage annual_rent_growth_pct annual_expense_growth_pct projection_years
  have h5def : (compute_yearly_projections purchase_price loan_amount annual_interest_rate
      loan_term_years monthly_mortgage gross_monthly_rent base_monthly_expenses
      total_cash_invested projection_years annual_appreciation_pct
      annual_rent_growth_pct annual_expense_growth_pct selling_cost_pct).irr_5yr
      = (if 5 ≤ projection_years then
          compute_irr total_cash_invested
            (yearlyNetCashflows gross_monthly_rent base_monthly_expenses monthly_mortgage
              annual_rent_growth_pct annual_expense_growth_pct projection_years)
            (yearlyBalances loan_amount annual_interest_rate loan_term_years projection_years)
            (yearlyValues purchase_price annual_appreciation_pct projection_years)
            5 selling_cost_pct
         else none) := rfl
  have h10def : (compute_yearly_projections purchase_price loan_amount annual_interest_rate
      loan_term_years monthly_mortgage gross_monthly_rent base_monthly_expenses
      total_cash_invested projection_years annual_appreciation_pct
      annual_rent_growth_pct annual_expense_growth_pct selling_cost_pct).irr_10yr
      = (if 10 ≤ projection_years then
          compute_irr total_cash_invested
            (yearlyNetCashflows gross_monthly_rent base_monthly_expenses monthly_mortgage
              annual_rent_growth_pct annual_expense_growth_pct projection_years)
            (yearlyBalances loan_amount annual_interest_rate loan_term_years projection_years)
            (yearlyValues purchase_price annual_appreciation_pct projection_years)
            10 selling_cost_pct
         else none) := rfl
  refine ⟨?_, ?_, ?_⟩
  · rw [h5def]
    by_cases hN : 5 ≤ projection_years
    · rw [if_pos hN]
      exact (compute_irr_none_iff _ _ _ _ _ _).trans (by rw [hlen])
    · rw [if_neg hN]
      exact ⟨fun _ => Or.inl (not_le.mp hN), fun _ => rfl⟩
  · rw [h10def]
    by_cases hN : 10 ≤ projection_years
    · rw [if_pos hN]
      exact (compute_irr_none_iff _ _ _ _ _ _).trans (by rw [hlen])
    · rw [if_neg hN]
      exact ⟨fun _ => Or.inl (not_le.mp hN), fun _ => rfl⟩
  · intro hpy
    subst hpy
    rw [h10def, if_neg (by norm_num)]

/-- **C8, witness.**  A 5-year projection run: its 10-year IRR is absent. -/
theorem c8_witness :
    (0 : ℚ) ≤ 7 ∧ (1 : ℤ) ≤ 30 ∧
    (compute_yearly_projections 100000 80000 7 30 500 1000 300 20000 5
      3 2 2 6).irr_10yr = none :=
  ⟨by norm_num, by norm_num,
    (c8_theorem 100000 80000 7 30 500 1000 300 20000 5 3 2 2 6
      (by norm_num) (by norm_num)).2.2 rfl⟩

/-- Deal input with `down_payment_pct` present with value 0 and no loan
amount, used by the C9 theorems. -/
def c9Deal : DealInputs :=
  DealInputs.mk (some 100000) (some 0) none none none none none none none
    none none none none none none none none none none none none

/-- **C9, counterexample.**  With purchase price 100000, `down_payment_pct`
supplied as 0 and `loan_amount` absent, `calculate_all` resolves the loan
to 80000 (80% of the price, the `or 20` default), not to the 100000 the
claim's `purchase_price × (1 − 0/100)` reading predicts. -/
theorem c9_counterexample :
    resolvedLoanAmount c9Deal = 80000 ∧ (80000 : ℚ) ≠ 100000 := by
  constructor
  · with_unfolding_all rfl
  · norm_num

/-- **C9, amended.**  The Python `or` defaults fire when an input is absent
**or zero** (falsy): for every deal input whose `down_payment_pct` is
present with value 0 and whose `loan_amount` is absent, `calculate_all`
resolves the loan amount with the default 20% down payment,
`purchase_price − purchase_price × 20/100` (80% financing), not 100%
financing. -/
theorem c9_theorem (p : DealInputs) (hd : p.down_payment_pct = some 0)
    (hl : p.loan_amount = none) :
    resolvedLoanAmount p
      = quantize2 (dOpt p.purchase_price - dOpt p.purchase_price * 20 / 100) := by
  simp [resolvedLoanAmount, orDflt, hd, hl]

/-- **C9, witness.**  The amended statement instantiated on `c9Deal`. -/
theorem c9_witness :
    c9Deal.down_payment_pct = some 0 ∧ c9Deal.loan_amount = none ∧
    resolvedLoanAmount c9Deal
      = quantize2 (dOpt c9Deal.purchase_price - dOpt c9Deal.purchase_price * 20 / 100) :=
  ⟨rfl, rfl, c9_theorem c9Deal rfl rfl⟩

/-- Deal input with non-positive `total_cash_invested`, used by the C10
theorems. -/
def c10Deal : DealInputs :=
  DealInputs.mk (some 50000) none (some 0) (some 0) none none none none none
    none none none none none none none none none none (some 0) (some 4000)

/-- **C10.**  When `calculate_irr_projection` is invoked with
`total_cash_invested ≤ 0`, it substitutes the purchase price as the initial
cash outflow and still hands the sequence to the IRR solver, returning its
result — no absent-metric short circuit and no validation error on the
non-positive invested amount. -/
theorem c10_theorem (p : DealInputs) (hold_years : ℕ)
    (h : dOpt p.total_cash_invested ≤ 0) :
    irrInitialOutlay p = dOpt p.purchase_price ∧
    calculate_irr_projection p hold_years =
      calculate_irr (-(dOpt p.purchase_price)
        :: (List.replicate hold_years (dOpt p.annual_cash_flow)
          ++ [irrExitProceeds p hold_years])) := by
  have h1 : irrInitialOutlay p = dOpt p.purchase_price := by
    unfold irrInitialOutlay
    rw [if_pos h]
  refine ⟨h1, ?_⟩
  simp only [calculate_irr_projection, irrCashFlows]
  rw [h1]

/-- **C10, witness.**  The statement instantiated on `c10Deal` (invested
amount 0) with a 5-year hold. -/
theorem c10_witness :
    dOpt c10Deal.total_cash_invested ≤ 0 ∧
    (irrInitialOutlay c10Deal = dOpt c10Deal.purchase_price ∧
      calculate_irr_projection c10Deal 5 =
        calculate_irr (-(dOpt c10Deal.purchase_price)
          :: (List.replicate 5 (dOpt c10Deal.annual_cash_flow)
            ++ [irrExitProceeds c10Deal 5]))) := by
  have h : dOpt c10Deal.total_cash_invested ≤ 0 := by
    norm_num [c10Deal, dOpt]
  exact ⟨h, c10_theorem c10Deal 5 h⟩
